import Mathlib

/-!
Shallow embedding of `src/arima.py` (the forecast orchestration core of the
gdr-project ARIMA pipeline) and verification of its specification.

Durations (`timedelta` values) are modelled as exact rational numbers of
seconds (`ℚ`): `timedelta.total_seconds()` yields a number of seconds, and
all the arithmetic the script performs on those numbers (`//`, `%`, `+`, `-`)
is modelled with exact rational arithmetic.  An absent optional argument
(`args.seasonal_period is None`) is modelled with `Option`.
-/

set_option autoImplicit false

namespace GdrArima

/-- Python's floor-modulo on numbers: `a % b = a - b * floor (a / b)`.
This is the semantics of `%` for Python floats with a positive divisor,
as used on line 82 of `src/arima.py`. -/
def pmod (a b : ℚ) : ℚ := a - b * ⌊a / b⌋

/-- Python's `int(...)` truncation toward zero, used for
`int(dt.timestamp())` on line 131 of `src/arima.py`. -/
def pyInt (q : ℚ) : ℤ := if q < 0 then ⌈q⌉ else ⌊q⌋

/-- Python truthiness of an optional `timedelta`: `None` is falsy and a zero
duration is falsy; any other duration is truthy.  This is the test performed
by `if args.seasonal_period` on lines 78 and 80 of `src/arima.py`. -/
def pyTruthy : Option ℚ → Bool
  | none => false
  | some sp => decide (sp ≠ 0)

/-- Line 78 of `src/arima.py`:
`season_offset = int(args.seasonal_period.total_seconds() // step.total_seconds()) if args.seasonal_period else 0`.
Python's `//` on numbers is floor division, and `int` of its (already
integral) result leaves it unchanged, so the computed value is
`⌊seasonal_period / step⌋` when `seasonal_period` is truthy and `0` otherwise. -/
def season_offset (step : ℚ) : Option ℚ → ℤ
  | none => 0
  | some sp => if sp = 0 then 0 else ⌊sp / step⌋

/-- Outcome of a fragment of the Python script: a normal value, a
`parser.error` exit (the script's `ConfigurationError`), an uncaught
`AttributeError` (attribute access on `None`), or an uncaught `TypeError`
(e.g. `None + [x]`). -/
inductive PyResult (α : Type) where
  | ok (val : α)
  | configError (msg : String)
  | attrError
  | typeError
  deriving DecidableEq

/-- Message of the `parser.error` on line 81 of `src/arima.py`. -/
def tooShortMsg : String := "Seasonal period is too short"

/-- Message of the `parser.error` on line 83 of `src/arima.py`. -/
def notMultipleMsg : String := "Seasonal period is not a multiple of the step"

/-- Lines 78-83 of `src/arima.py` (the Time Grid Resolver):

```
season_offset = int(sp.total_seconds() // step.total_seconds()) if args.seasonal_period else 0
if args.seasonal_period and season_offset < 2:
    parser.error("Seasonal period is too short ...")
elif args.seasonal_period.total_seconds() % step.total_seconds() != 0:
    parser.error("Seasonal period is not a multiple of the step")
```

Note that the `elif` accesses `args.seasonal_period.total_seconds()`
unconditionally, so when `args.seasonal_period` is `None` the script raises
`AttributeError` there instead of proceeding with `season_offset = 0`. -/
def resolver (step : ℚ) (spOpt : Option ℚ) : PyResult ℤ :=
  let off := season_offset step spOpt
  if pyTruthy spOpt && decide (off < 2) then
    .configError tooShortMsg
  else
    match spOpt with
    | none => .attrError
    | some sp =>
      if pmod sp step ≠ 0 then .configError notMultipleMsg
      else .ok off

/-- The two fitting modes of lines 91-95 of `src/arima.py`: a seasonal
`ARIMA(series, order, seasonal_order)` call or a plain `ARIMA(series, order)`
call, recording the arguments passed to the external modelling library. -/
inductive FitCall where
  | seasonal (order : ℤ × ℤ × ℤ) (seasonal_order : List ℤ)
  | nonSeasonal (order : ℤ × ℤ × ℤ)
  deriving DecidableEq

/-- Lines 91-95 of `src/arima.py` (the Forecast Fitter dispatch):

```
fit = (ARIMA(series, order=args.order, seasonal_order=args.seasonal_order + [season_offset]).fit()
       if season_offset > 0
       else ARIMA(series, order=args.order).fit())
```

When `season_offset > 0` but `args.seasonal_order` is `None`, the expression
`None + [season_offset]` raises `TypeError`. -/
def fitCall (order : ℤ × ℤ × ℤ) (seasonalOrder : Option (List ℤ)) (off : ℤ) :
    PyResult FitCall :=
  if 0 < off then
    match seasonalOrder with
    | some so => .ok (.seasonal order (so ++ [off]))
    | none => .typeError
  else
    .ok (.nonSeasonal order)

/-- The resolver followed by the fitter dispatch, as executed by the script:
lines 78-83 and then (for each series) lines 91-95. -/
def corePipeline (step : ℚ) (spOpt : Option ℚ) (soOpt : Option (List ℤ))
    (order : ℤ × ℤ × ℤ) : PyResult FitCall :=
  match resolver step spOpt with
  | .ok off => fitCall order soOpt off
  | .configError m => .configError m
  | .attrError => .attrError
  | .typeError => .typeError

/-! ### Helper lemmas about the resolver -/

theorem season_offset_some (step sp : ℚ) (hsp : sp ≠ 0) :
    season_offset step (some sp) = ⌊sp / step⌋ := by
  simp [season_offset, hsp]

theorem resolver_some_short (step sp : ℚ) (hsp : sp ≠ 0) (h : ⌊sp / step⌋ < 2) :
    resolver step (some sp) = .configError tooShortMsg := by
  simp [resolver, pyTruthy, season_offset, hsp, h]

theorem resolver_some_notMultiple (step sp : ℚ) (hsp : sp ≠ 0)
    (hfloor : 2 ≤ ⌊sp / step⌋) (hmul : pmod sp step ≠ 0) :
    resolver step (some sp) = .configError notMultipleMsg := by
  simp [resolver, pyTruthy, season_offset, hsp, not_lt.mpr hfloor, hmul]

theorem resolver_some_ok (step sp : ℚ) (hsp : sp ≠ 0)
    (hfloor : 2 ≤ ⌊sp / step⌋) (hmul : pmod sp step = 0) :
    resolver step (some sp) = .ok ⌊sp / step⌋ := by
  simp [resolver, pyTruthy, season_offset, hsp, not_lt.mpr hfloor, hmul]

theorem resolver_some_zero (step : ℚ) : resolver step (some 0) = .ok 0 := by
  simp [resolver, pyTruthy, season_offset, pmod]

theorem floor_eq_div_of_pmod_eq_zero (step sp : ℚ) (hstep : step ≠ 0)
    (hmul : pmod sp step = 0) : ((⌊sp / step⌋ : ℤ) : ℚ) = sp / step := by
  have h : sp = step * ⌊sp / step⌋ := by
    have := sub_eq_zero.mp hmul
    linarith [this]
  rw [h]
  field_simp

/-! ### Evaluation helpers for concrete rationals

`decide` cannot reduce `⌊·⌋` and rational arithmetic through the kernel, so
concrete instances are evaluated with these lemmas and `norm_num`. -/

theorem floor_eval (q : ℚ) (z : ℤ) (h1 : (z : ℚ) ≤ q) (h2 : q < z + 1) : ⌊q⌋ = z := by
  rw [Int.floor_eq_iff]
  exact ⟨h1, h2⟩

theorem pmod_eval (a b : ℚ) (z : ℤ) (hfloor : ⌊a / b⌋ = z) :
    pmod a b = a - b * z := by
  rw [pmod, hfloor]

/-! ### Claims about the Time Grid Resolver and the Forecast Fitter -/

/-- C1: the spec claims that, when no seasonal_period is supplied, the Time
Grid Resolver returns season_offset = 0 and completes without raising any
error.  The code instead evaluates `args.seasonal_period.total_seconds()` on
`None` in the `elif` of line 82 and raises `AttributeError`: here, with a
step of 300 seconds and no seasonal period, the resolver crashes. -/
theorem resolver_none_raises_attrError :
    resolver 300 none = PyResult.attrError := by
  decide

/-- C3 counterexample: a supplied zero seasonal period (`timedelta(0)` is
falsy in Python) has floor quotient 0 < 2, yet the resolver raises no
ConfigurationError: both checks are skipped and it succeeds with offset 0,
refuting the too-short case of the claim at step 1 s, period 0 s. -/
theorem resolver_zero_period_cex :
    resolver 1 (some 0) = PyResult.ok 0
    ∧ ⌊(0 : ℚ) / 1⌋ < 2
    ∧ resolver 1 (some 0) ≠ PyResult.configError tooShortMsg
    ∧ resolver 1 (some 0) ≠ PyResult.configError notMultipleMsg := by
  refine ⟨resolver_some_zero 1, by norm_num, ?_, ?_⟩ <;>
    rw [resolver_some_zero 1] <;> simp

/-- C3 amended: with a nonzero seasonal_period supplied: if it is an exact
multiple of the step with quotient at least 2, the resolver succeeds and
returns exactly seasonal_period / step; if the floor quotient is below 2 it
fails with the too-short ConfigurationError; and if it is not an exact
multiple while the floor quotient is at least 2 it fails with the
not-a-multiple ConfigurationError.  A supplied zero seasonal period,
however, is falsy in Python: it skips both validation checks and succeeds
silently with season_offset = 0. -/
theorem resolver_seasonal_cases (step sp : ℚ) (hstep : 0 < step) :
    (sp ≠ 0 → pmod sp step = 0 → 2 ≤ ⌊sp / step⌋ →
      resolver step (some sp) = .ok ⌊sp / step⌋ ∧ ((⌊sp / step⌋ : ℤ) : ℚ) = sp / step)
    ∧ (sp ≠ 0 → ⌊sp / step⌋ < 2 → resolver step (some sp) = .configError tooShortMsg)
    ∧ (sp ≠ 0 → pmod sp step ≠ 0 → 2 ≤ ⌊sp / step⌋ →
      resolver step (some sp) = .configError notMultipleMsg)
    ∧ (sp = 0 → resolver step (some sp) = .ok 0) :=
  ⟨fun hsp hmul hfloor => ⟨resolver_some_ok step sp hsp hfloor hmul,
      floor_eq_div_of_pmod_eq_zero step sp hstep.ne' hmul⟩,
    fun hsp hshort => resolver_some_short step sp hsp hshort,
    fun hsp hmul hfloor => resolver_some_notMultiple step sp hsp hfloor hmul,
    fun hz => by subst hz; exact resolver_some_zero step⟩

/-- Witness for C3's amended claim: step 1 s, period 24 s is accepted with
offset 24; step 2 s, period 3 s is rejected as too short; step 4 s, period
10 s is rejected as not a multiple; step 1 s, period 0 s slips through with
offset 0. -/
theorem resolver_seasonal_cases_witness :
    (resolver 1 (some 24) = .ok ⌊(24 : ℚ) / 1⌋ ∧ ((⌊(24 : ℚ) / 1⌋ : ℤ) : ℚ) = 24 / 1)
    ∧ resolver 2 (some 3) = .configError tooShortMsg
    ∧ resolver 4 (some 10) = .configError notMultipleMsg
    ∧ resolver 1 (some 0) = .ok 0 :=
  ⟨(resolver_seasonal_cases 1 24 (by norm_num)).1 (by norm_num)
      (by rw [pmod_eval 24 1 24 (floor_eval _ 24 (by norm_num) (by norm_num))]; norm_num)
      (by rw [floor_eval ((24 : ℚ) / 1) 24 (by norm_num) (by norm_num)]; norm_num),
    (resolver_seasonal_cases 2 3 (by norm_num)).2.1 (by norm_num)
      (by rw [floor_eval ((3 : ℚ) / 2) 1 (by norm_num) (by norm_num)]; norm_num),
    (resolver_seasonal_cases 4 10 (by norm_num)).2.2.1 (by norm_num)
      (by rw [pmod_eval 10 4 2 (floor_eval _ 2 (by norm_num) (by norm_num))]; norm_num)
      (by rw [floor_eval ((10 : ℚ) / 4) 2 (by norm_num) (by norm_num)]),
    (resolver_seasonal_cases 1 0 (by norm_num)).2.2.2 rfl⟩

/-- C9: when both validation conditions are violated (floor quotient below 2
and period not an exact multiple of the step), the too-short error is the one
reported: the `elif` multiple-of-step check is shadowed by the first branch. -/
theorem resolver_tooShort_shadows_notMultiple (step sp : ℚ) (_hstep : 0 < step)
    (hsp : 0 < sp) (hshort : ⌊sp / step⌋ < 2) (_hmul : pmod sp step ≠ 0) :
    resolver step (some sp) = .configError tooShortMsg :=
  resolver_some_short step sp hsp.ne' hshort

/-- Witness for C9: step 2 s, period 3 s — the quotient floors to 1 < 2 and
3 is not a multiple of 2, and the reported error is the too-short one. -/
theorem resolver_tooShort_shadows_notMultiple_witness :
    resolver 2 (some 3) = .configError tooShortMsg ∧ pmod 3 2 ≠ 0 :=
  ⟨resolver_tooShort_shadows_notMultiple 2 3 (by norm_num) (by norm_num)
      (by rw [floor_eval ((3 : ℚ) / 2) 1 (by norm_num) (by norm_num)]; norm_num)
      (by rw [pmod_eval 3 2 1 (floor_eval _ 1 (by norm_num) (by norm_num))]; norm_num),
    by rw [pmod_eval 3 2 1 (floor_eval _ 1 (by norm_num) (by norm_num))]; norm_num⟩

/-- C4: with a seasonal order triple supplied, the fitter performs the
seasonal `ARIMA` call with `seasonal_order + [season_offset]` exactly when
`season_offset > 0`, and otherwise the plain call with the order alone. -/
theorem fitCall_branch_selection (order : ℤ × ℤ × ℤ) (base : List ℤ) (off : ℤ) :
    (0 < off → fitCall order (some base) off = .ok (.seasonal order (base ++ [off])))
    ∧ (¬ 0 < off → fitCall order (some base) off = .ok (.nonSeasonal order)) := by
  constructor <;> intro h <;> simp [fitCall, h]

/-- Witness for C4: with offset 24 the seasonal call is made with the
4-element seasonal order; with offset 0 the plain call is made. -/
theorem fitCall_branch_selection_witness :
    fitCall (1, 0, 0) (some [1, 1, 0]) 24 = .ok (.seasonal (1, 0, 0) ([1, 1, 0] ++ [24]))
    ∧ fitCall (2, 1, 2) (some [1, 1, 0]) 0 = .ok (.nonSeasonal (2, 1, 2)) :=
  ⟨(fitCall_branch_selection (1, 0, 0) [1, 1, 0] 24).1 (by norm_num),
    (fitCall_branch_selection (2, 1, 2) [1, 1, 0] 0).2 (by norm_num)⟩

/-- C7 counterexample: with seasonal_period = 24 s, step = 1 s and no
seasonal order, the core does not reject the configuration with a
ConfigurationError (`parser.error`); it raises an uncaught `TypeError` from
`None + [season_offset]` while building the first seasonal fit. -/
theorem corePipeline_missing_seasonal_order_cex :
    corePipeline 1 (some 24) none (1, 0, 0) = PyResult.typeError
    ∧ corePipeline 1 (some 24) none (1, 0, 0) ≠ PyResult.configError tooShortMsg
    ∧ corePipeline 1 (some 24) none (1, 0, 0) ≠ PyResult.configError notMultipleMsg := by
  have hf : ⌊(24 : ℚ) / 1⌋ = 24 := floor_eval _ 24 (by norm_num) (by norm_num)
  have hok : resolver 1 (some 24) = .ok 24 := by
    rw [resolver_some_ok 1 24 (by norm_num) (by rw [hf]; norm_num)
      (by rw [pmod_eval 24 1 24 hf]; norm_num), hf]
  refine ⟨?_, ?_, ?_⟩ <;> simp [corePipeline, hok, fitCall]

/-- C7 amended: with seasonal_period present and the seasonal order triple
absent, the core never rejects the configuration with a ConfigurationError:
for a nonzero seasonal_period that passes grid validation it raises a
`TypeError` (from `None + [season_offset]`) when building the seasonal fit
arguments, and for a zero seasonal_period (falsy in Python, so validation is
skipped with season_offset = 0) it proceeds to a non-seasonal fit with no
error at all. -/
theorem corePipeline_missing_seasonal_order (step sp : ℚ) (order : ℤ × ℤ × ℤ) :
    (sp ≠ 0 → 2 ≤ ⌊sp / step⌋ → pmod sp step = 0 →
      corePipeline step (some sp) none order = PyResult.typeError)
    ∧ corePipeline step (some 0) none order = PyResult.ok (FitCall.nonSeasonal order) := by
  constructor
  · intro hsp hfloor hmul
    have h := resolver_some_ok step sp hsp hfloor hmul
    have hoff : (0 : ℤ) < ⌊sp / step⌋ := lt_of_lt_of_le (by norm_num) hfloor
    simp [corePipeline, h, fitCall, hoff]
  · simp [corePipeline, resolver_some_zero step, fitCall]

/-- Witness for C7's amended claim: seasonal_period 24 s, step 1 s, no
seasonal order — the run ends in a TypeError; seasonal_period 0 s, no
seasonal order — the run silently fits non-seasonally. -/
theorem corePipeline_missing_seasonal_order_witness :
    corePipeline 1 (some 24) none (2, 1, 2) = PyResult.typeError
    ∧ corePipeline 1 (some 0) none (2, 1, 2) = PyResult.ok (FitCall.nonSeasonal (2, 1, 2)) :=
  ⟨(corePipeline_missing_seasonal_order 1 24 (2, 1, 2)).1 (by norm_num)
      (by rw [floor_eval ((24 : ℚ) / 1) 24 (by norm_num) (by norm_num)]; norm_num)
      (by rw [pmod_eval 24 1 24 (floor_eval _ 24 (by norm_num) (by norm_num))]; norm_num),
    (corePipeline_missing_seasonal_order 1 0 (2, 1, 2)).2⟩

/-- C10 counterexample: with step 1 s and a supplied zero seasonal period
(`timedelta(0)` is falsy in Python), validation completes normally with
season_offset = 0 although a seasonal period was supplied, the offset is not
at least 2, and the fitter's `season_offset > 0` test takes the non-seasonal
branch — refuting both "0 exactly when not supplied" and "seasonal branch
precisely when supplied". -/
theorem season_offset_zero_period_cex :
    resolver 1 (some 0) = PyResult.ok 0
    ∧ (some (0 : ℚ) : Option ℚ) ≠ none
    ∧ ¬ (2 : ℤ) ≤ 0
    ∧ fitCall (1, 0, 0) (some [1, 1, 0]) 0 = PyResult.ok (FitCall.nonSeasonal (1, 0, 0)) := by
  refine ⟨resolver_some_zero 1, by simp, by norm_num, by simp [fitCall]⟩

/-- C10 amended: whenever the resolver completes normally, season_offset is
never 1: a seasonal_period was necessarily supplied (with none, the resolver
never completes normally — it crashes), the offset is 0 exactly when the
supplied period was the zero duration, it is at least 2 for every nonzero
supplied period, and the fitter's `season_offset > 0` test selects the
seasonal branch exactly when the supplied period was nonzero. -/
theorem season_offset_invariant (step : ℚ) (spOpt : Option ℚ) (off : ℤ)
    (hok : resolver step spOpt = PyResult.ok off) :
    off ≠ 1 ∧ (off = 0 ↔ spOpt = some 0) ∧ spOpt.isSome = true
    ∧ (∀ sp, spOpt = some sp → sp ≠ 0 → 2 ≤ off)
    ∧ (0 < off ↔ spOpt ≠ some 0) := by
  cases spOpt with
  | none =>
    exfalso
    simp [resolver, pyTruthy, season_offset] at hok
  | some sp =>
    by_cases hz : sp = 0
    · subst hz
      rw [resolver_some_zero step] at hok
      have h0 : off = 0 := by
        injection hok with h
        omega
      subst h0
      refine ⟨by norm_num, by simp, rfl, ?_, by simp⟩
      intro s hs hne
      exact absurd (Option.some.inj hs).symm hne
    · by_cases hshort : ⌊sp / step⌋ < 2
      · rw [resolver_some_short step sp hz hshort] at hok
        exact absurd hok (by simp)
      · push_neg at hshort
        by_cases hmul : pmod sp step = 0
        · rw [resolver_some_ok step sp hz hshort hmul] at hok
          have h2 : 2 ≤ off := by
            injection hok with h
            omega
          refine ⟨by omega,
            ⟨fun h0 => absurd h2 (by omega), fun hcon => absurd (Option.some.inj hcon) hz⟩,
            rfl, fun s hs hn => h2,
            ⟨fun _ hcon => absurd (Option.some.inj hcon) hz, fun _ => by omega⟩⟩
        · rw [resolver_some_notMultiple step sp hz hshort hmul] at hok
          exact absurd hok (by simp)

/-- Witness for C10's amended claim: step 1 s, seasonal_period 2 s resolves
to offset 2, which is not 1, not 0, at least 2, and positive with a nonzero
period supplied. -/
theorem season_offset_invariant_witness :
    (2 : ℤ) ≠ 1 ∧ ((2 : ℤ) = 0 ↔ (some (2 : ℚ) : Option ℚ) = some 0)
    ∧ (some (2 : ℚ) : Option ℚ).isSome = true
    ∧ (∀ sp, (some (2 : ℚ) : Option ℚ) = some sp → sp ≠ 0 → (2 : ℤ) ≤ 2)
    ∧ ((0 : ℤ) < 2 ↔ (some (2 : ℚ) : Option ℚ) ≠ some 0) :=
  season_offset_invariant 1 (some 2) 2
    (by
      have hf : ⌊(2 : ℚ) / 1⌋ = 2 := floor_eval _ 2 (by norm_num) (by norm_num)
      rw [resolver_some_ok 1 2 (by norm_num) (by rw [hf])
        (by rw [pmod_eval 2 1 2 hf]; norm_num), hf])

/-! ### The per-series batch loop (lines 88-131) -/

/-- Result of the `for source in data:` loop of lines 88-131 of
`src/arima.py`: either every series was processed, or an uncaught exception
from `ARIMA(...).fit()` terminated the loop at the named series, keeping only
the outputs of the series already processed. -/
inductive BatchResult (ρ : Type) where
  | done (outputs : List ρ)
  | aborted (outputs : List ρ) (failed : String)
  deriving DecidableEq

/-- Lines 88-131 of `src/arima.py`, abstracted over the per-series work: the
loop body calls `ARIMA(...).fit()` (`fitOutcome`, with `none` modelling an
estimation exception) and then produces that series' forecast and export
output (`process`).  The loop body contains no `try`/`except`, so an
exception from `fit` propagates and terminates the whole loop. -/
def processBatch {μ ρ : Type} (fitOutcome : String → Option μ)
    (process : String → μ → ρ) : List String → BatchResult ρ
  | [] => .done []
  | s :: rest =>
    match fitOutcome s with
    | none => .aborted [] s
    | some m =>
      match processBatch fitOutcome process rest with
      | .done outs => .done (process s m :: outs)
      | .aborted outs t => .aborted (process s m :: outs) t

/-- A fit oracle on which fitting fails for series "a" and succeeds for
series "b". -/
def demoFitFailA : String → Option Unit := fun s => if s = "b" then some () else none

/-- C2 counterexample: in the batch ["a", "b"], where fitting "a" raises a
FitError and fitting "b" would succeed, the loop aborts at "a": the
remaining series "b" is never processed and contributes no output,
contradicting the claim that the batch continues past a fit failure. -/
theorem processBatch_abort_cex :
    processBatch demoFitFailA (fun s _ => s) ["a", "b"] =
      BatchResult.aborted ([] : List String) "a" := by
  rfl

/-- C2 amended: an uncaught fit failure terminates the batch at the first
failing series: the series before it keep their outputs, while the failing
series and every series after it produce no output. -/
theorem processBatch_aborts_at_first_failure {μ ρ : Type}
    (fitOutcome : String → Option μ) (vals : String → μ) (process : String → μ → ρ)
    (pre post : List String) (f : String)
    (hpre : ∀ s ∈ pre, fitOutcome s = some (vals s)) (hf : fitOutcome f = none) :
    processBatch fitOutcome process (pre ++ f :: post) =
      BatchResult.aborted (pre.map fun s => process s (vals s)) f := by
  induction pre with
  | nil => simp [processBatch, hf]
  | cons a as ih =>
    have ha : fitOutcome a = some (vals a) := hpre a (by simp)
    have ihr := ih fun s hs => hpre s (by simp [hs])
    simp [processBatch, ha, ihr]

/-- A fit oracle on which fitting fails for series "b" only. -/
def demoFitFailB : String → Option Unit := fun s => if s = "b" then none else some ()

/-- Witness for C2's amended claim: in the batch ["a", "b", "c"] where "b"
fails to fit, the loop keeps the output of "a" and aborts at "b"; "c" is
never processed. -/
theorem processBatch_aborts_at_first_failure_witness :
    processBatch demoFitFailB (fun s _ => s) (["a"] ++ "b" :: ["c"]) =
      BatchResult.aborted ["a"] "b" :=
  processBatch_aborts_at_first_failure demoFitFailB (fun _ => ()) (fun s _ => s)
    ["a"] ["c"] "b"
    (fun s hs => by
      simp only [List.mem_singleton] at hs
      subst hs
      rfl)
    rfl

/-! ### The Interval Assembler (lines 99-105) -/

/-- The fixed confidence levels of line 99 of `src/arima.py`. -/
def levels : List ℕ := [25, 50, 75]

/-- The domain of the result of `fit.get_prediction(start=..., end=...)`:
the external statsmodels collaborator returns predictions over exactly the
closed timestamp range given by its two arguments. -/
structure PredictionDomain where
  domStart : ℚ
  domEnd : ℚ
  deriving DecidableEq

/-- Models the external `fit.get_prediction(start, end)` call of line 101:
the returned prediction result spans exactly the requested range. -/
def get_prediction (s e : ℚ) : PredictionDomain := ⟨s, e⟩

/-- Models `prediction_result.conf_int(alpha=...)` of line 104: the external
collaborator computes the confidence interval over the same domain as the
prediction result it is called on; the significance argument is recorded. -/
def conf_int (pr : PredictionDomain) (alpha : ℚ) : ℚ × PredictionDomain := (alpha, pr)

/-- The assembled output of lines 99-105 of `src/arima.py`. -/
structure AssembledForecast where
  prediction : PredictionDomain
  confIntervals : List (ℕ × ℚ × PredictionDomain)
  deriving DecidableEq

/-- Lines 99-105 of `src/arima.py` (the Interval Assembler):

```
prediction_result = fit.get_prediction(start=start, end=end + args.forecast_period - step)
prediction = prediction_result.predicted_mean
prediction_conf_int = {level: prediction_result.conf_int(alpha=1 - level / 100) for level in levels}
```

Python's `/` on integers is true division, so `1 - level / 100` is the exact
rational `1 - level / 100`. -/
def assemble (start endT step forecastPeriod : ℚ) : AssembledForecast :=
  let prediction_result := get_prediction start (endT + forecastPeriod - step)
  { prediction := prediction_result
    confIntervals := levels.map fun level =>
      (level, conf_int prediction_result (1 - (level : ℚ) / 100)) }

theorem assemble_prediction (start endT step forecastPeriod : ℚ) :
    (assemble start endT step forecastPeriod).prediction =
      ⟨start, endT + forecastPeriod - step⟩ := rfl

/-- C5: the point forecast spans exactly `[grid.start, end + forecast_period
- step]`, and there is one confidence band per level in {25, 50, 75}, each
computed at significance `alpha = 1 - level / 100` and each spanning that
same domain. -/
theorem assemble_domains (start endT step forecastPeriod : ℚ) :
    (assemble start endT step forecastPeriod).prediction =
      ⟨start, endT + forecastPeriod - step⟩
    ∧ (assemble start endT step forecastPeriod).confIntervals =
      [(25, 1 - (25 : ℚ) / 100, ⟨start, endT + forecastPeriod - step⟩),
       (50, 1 - (50 : ℚ) / 100, ⟨start, endT + forecastPeriod - step⟩),
       (75, 1 - (75 : ℚ) / 100, ⟨start, endT + forecastPeriod - step⟩)] := by
  constructor
  · rfl
  · simp [assemble, get_prediction, conf_int, levels]

/-! ### The Result Exporter (lines 85-86 and 129-131) -/

/-- The prediction index over a domain `[s, e]` on a wall-clock grid of step
`step`: the timestamps `s, s + step, s + 2*step, ...` up to `e` inclusive, in
chronological order.  This is the index of the series returned by the
external collaborator and hence the order in which `prediction.items()` of
line 130 enumerates the forecast. -/
def domainList (s e step : ℚ) : List ℚ :=
  (List.range (⌊(e - s) / step⌋ + 1).toNat).map fun (k : ℕ) => s + (k : ℚ) * step

/-- `prediction.items()` of line 130: timestamp/value pairs of the point
forecast over its domain, the values given by the fitted model's predicted
mean `f`. -/
def predictionItems (pr : PredictionDomain) (step : ℚ) (f : ℚ → ℚ) : List (ℚ × ℚ) :=
  (domainList pr.domStart pr.domEnd step).map fun t => (t, f t)

/-- One line of the CSV export: the header printed on line 86 or a
`source,int(dt.timestamp()),value` row printed on line 131. -/
inductive CsvLine where
  | header
  | row (ds : String) (timestamp : ℤ) (value : ℚ)
  deriving DecidableEq

/-- The rows printed for one series by the loop of lines 129-131. -/
def seriesRows (name : String) (items : List (ℚ × ℚ)) : List CsvLine :=
  items.map fun tv => .row name (pyInt tv.1) tv.2

/-- The rows printed by the per-series loop, one block per series in order. -/
def concatRows : List (String × List (ℚ × ℚ)) → List CsvLine
  | [] => []
  | p :: rest => seriesRows p.1 p.2 ++ concatRows rest

/-- Lines 85-86 and 129-131 of `src/arima.py` when an output file is
requested: the header row `ds,timestamp,value` printed first, then each
series' rows. -/
def exportOutput (results : List (String × List (ℚ × ℚ))) : List CsvLine :=
  .header :: concatRows results

/-- Follows the spec's words for the export: a header line and then, for
each series in order and for each timestamp of the point-forecast domain in
chronological order, exactly one row of series name, integer unix timestamp
and forecast value. -/
def specExport (names : List String) (dom : List ℚ) (f : String → ℚ → ℚ) : List CsvLine :=
  CsvLine.header ::
    names.foldr (fun n acc => (dom.map fun t => CsvLine.row n (pyInt t) (f n t)) ++ acc) []

theorem domainList_sorted (s e step : ℚ) (hstep : 0 < step) :
    List.Sorted (· < ·) (domainList s e step) := by
  unfold domainList
  refine List.Pairwise.map _ ?_ (List.sorted_lt_range _)
  intro a b hab
  have hq : (a : ℚ) < (b : ℚ) := by exact_mod_cast hab
  have := mul_lt_mul_of_pos_right hq hstep
  linarith

/-- C8: with export requested and every series fitting successfully, the
export output is the header `ds,timestamp,value` followed by, for each
series in order and each timestamp of its point-forecast domain in
chronological (strictly increasing) order, exactly one row of series name,
integer unix timestamp and forecast value. -/
theorem export_matches_spec (names : List String) (f : String → ℚ → ℚ)
    (start endT step forecastPeriod : ℚ) (hstep : 0 < step) :
    exportOutput (names.map fun nm =>
        (nm, predictionItems (assemble start endT step forecastPeriod).prediction step (f nm)))
      = specExport names (domainList start (endT + forecastPeriod - step) step) f
    ∧ List.Sorted (· < ·) (domainList start (endT + forecastPeriod - step) step) := by
  constructor
  · simp only [exportOutput, specExport]
    congr 1
    induction names with
    | nil => rfl
    | cons nm rest ih =>
      simp only [List.map_cons, concatRows, List.foldr_cons]
      rw [ih]
      simp only [seriesRows, predictionItems, assemble_prediction, List.map_map]
      rfl
  · exact domainList_sorted _ _ _ hstep

/-- A concrete predicted-mean oracle for the C8 witness. -/
def demoValue : String → ℚ → ℚ := fun _ t => t

/-- Witness for C8: one series "x" over the grid start 0, end 2, step 1,
forecast period 1. -/
theorem export_matches_spec_witness :
    exportOutput ((["x"]).map fun nm =>
        (nm, predictionItems (assemble 0 2 1 1).prediction 1 (demoValue nm)))
      = specExport ["x"] (domainList 0 (2 + 1 - 1) 1) demoValue
    ∧ List.Sorted (· < ·) (domainList 0 (2 + 1 - 1) 1) :=
  export_matches_spec ["x"] demoValue 0 2 1 1 (by norm_num)

end GdrArima
